import Mathlib

/-!
Shallow embedding of `src/notificationSystem.cpp`, a single-file C++ program
combining the Decorator, Observer, Strategy and Singleton patterns into a
notification pipeline.  Pointers are modelled by values (observer identity by a
numeric id), the mutable observable by an explicit state record, and the
`cout` side effects by returned event lists / output strings.
-/

namespace NotificationModel

/-- Embedding of the `INotification` class hierarchy (lines 8-57 of the
source): `SimpleNotification` holds a text, `TimestampDecorator` and
`SignatureDecorator` each wrap one inner notification. -/
inductive INotification where
  | simple (text : String)
  | timestamp (inner : INotification)
  | signature (inner : INotification) (sig : String)
deriving DecidableEq, Repr

/-- `getContent` as implemented by each concrete class:
`SimpleNotification::getContent` returns the stored text (line 21-23),
`TimestampDecorator::getContent` prepends the fixed timestamp string
(lines 42-44), `SignatureDecorator::getContent` appends a signature block
(lines 54-56). -/
def getContent : INotification → String
  | .simple text => text
  | .timestamp inner => "[2025-10-26 10:45:00] " ++ getContent inner
  | .signature inner sig => getContent inner ++ "\n-- " ++ sig ++ "\n\n"

/-- The two decorator variants of the source, as a closed set of decorations
that can be applied to a notification. -/
inductive Decoration where
  | timestamp
  | signature (sig : String)
deriving DecidableEq, Repr

/-- Wrapping a notification in one decorator object (constructor calls at
lines 40 and 51 of the source). -/
def applyDecoration (d : Decoration) (n : INotification) : INotification :=
  match d with
  | .timestamp => .timestamp n
  | .signature sig => .signature n sig

/-- The string transformation performed by each decorator variant, read off
from `TimestampDecorator::getContent` (line 43) and
`SignatureDecorator::getContent` (line 55). -/
def decorationFn (d : Decoration) (s : String) : String :=
  match d with
  | .timestamp => "[2025-10-26 10:45:00] " ++ s
  | .signature sig => s ++ "\n-- " ++ sig ++ "\n\n"

/-- Observer identity: the C++ code stores raw `IObserver*` pointers and
compares them by pointer equality; a numeric id models that identity. -/
abbrev ObserverId := Nat

/-- State of a `NotificationObservable` (lines 72-116): the `observers`
vector and the `currentNotification` pointer (nullable, hence `Option`). -/
structure ObservableState where
  observers : List ObserverId
  currentNotification : Option INotification
deriving DecidableEq, Repr

/-- The `NotificationObservable` constructor (lines 77-79): empty observer
vector, `currentNotification = nullptr`. -/
def freshObservable : ObservableState :=
  { observers := [], currentNotification := none }

/-- `addObserver` (lines 81-83): `observers.push_back(obs)`. -/
def addObserver (s : ObservableState) (obs : ObserverId) : ObservableState :=
  { s with observers := s.observers ++ [obs] }

/-- `removeObserver` (lines 85-87): the erase/remove idiom deletes every
occurrence equal to the given pointer, keeping the rest in order. -/
def removeObserver (s : ObservableState) (obs : ObserverId) : ObservableState :=
  { s with observers := s.observers.filter (fun o => o ≠ obs) }

/-- `getNotificationContent` (lines 107-109) dereferences
`currentNotification` without a null check and calls `getContent` on it.  A
null dereference cannot produce a string; the call is modelled as returning
`none` exactly when `currentNotification` is null. -/
def getNotificationContent (s : ObservableState) : Option String :=
  s.currentNotification.map getContent

/-- `notifyObservers` (lines 89-93): iterates the observer vector in index
order and calls `update()` on each.  Every concrete observer of the program
reads `getNotificationContent()` from the observable inside `update`; the
returned trace records, in call order, which observer was invoked and what
content it observed. -/
def notifyObservers (s : ObservableState) : List (ObserverId × Option String) :=
  s.observers.map (fun o => (o, getNotificationContent s))

/-- `setNotification` (lines 95-101): deletes the previous
`currentNotification` (value replacement here), stores the new one, then
calls `notifyObservers`.  Returns the new state together with the
notification trace. -/
def setNotification (s : ObservableState) (n : INotification) :
    ObservableState × List (ObserverId × Option String) :=
  let s' : ObservableState := { s with currentNotification := some n }
  (s', notifyObservers s')

/-- A subscribe/unsubscribe call, used to describe the states reachable
without any publish. -/
inductive SubOp where
  | add (o : ObserverId)
  | remove (o : ObserverId)
deriving DecidableEq, Repr

/-- Apply one subscribe/unsubscribe call. -/
def applySubOp (s : ObservableState) : SubOp → ObservableState
  | .add o => addObserver s o
  | .remove o => removeObserver s o

/-- Apply a sequence of subscribe/unsubscribe calls in order. -/
def applySubOps (s : ObservableState) (ops : List SubOp) : ObservableState :=
  ops.foldl applySubOp s

theorem applySubOp_currentNotification (s : ObservableState) (op : SubOp) :
    (applySubOp s op).currentNotification = s.currentNotification := by
  cases op <;> rfl

theorem applySubOps_currentNotification (ops : List SubOp) (s : ObservableState) :
    (applySubOps s ops).currentNotification = s.currentNotification := by
  induction ops generalizing s with
  | nil => rfl
  | cons op rest ih =>
      simpa [applySubOps, applySubOp_currentNotification] using
        (ih (applySubOp s op)).trans (applySubOp_currentNotification s op)

/-- C1: on a freshly constructed observable, after any sequence of
subscribe/unsubscribe calls and no `setNotification`, `getNotificationContent`
does not return a string: the C++ dereferences the null `currentNotification`
(undefined behaviour, a crash in practice), modelled as `none`.  No structured
EmptyState error object exists anywhere in the code. -/
theorem getNotificationContent_before_publish_fails (ops : List SubOp) :
    getNotificationContent (applySubOps freshObservable ops) = none := by
  simp [getNotificationContent, applySubOps_currentNotification, freshObservable]

/-- C2: decorations compose in application order with the last decoration
outermost: wrapping a base string in `d1` then `d2` yields
`d2(d1(b))`, and in particular
`SignatureDecorator(TimestampDecorator(SimpleNotification(b)), sig)`
produces the signature transformation applied to the timestamp
transformation applied to `b`. -/
theorem decorations_compose (b sig : String) (d1 d2 : Decoration) :
    getContent (applyDecoration d2 (applyDecoration d1 (.simple b))) =
      decorationFn d2 (decorationFn d1 b) ∧
    getContent (.signature (.timestamp (.simple b)) sig) =
      decorationFn (.signature sig) (decorationFn .timestamp b) := by
  constructor
  · cases d1 <;> cases d2 <;> rfl
  · rfl

/-- A delivery attempt failure.  The concrete strategies of the source never
fail, but `INotificationStrategy` is an open virtual interface and the spec
discusses a failing channel; a C++ implementation fails by throwing. -/
structure ChannelError where
  msg : String
deriving DecidableEq, Repr

/-- A successful delivery, tagged with the channel variant and the data it
was invoked with (target identifier and content). -/
inductive DeliveryEvent where
  | email (emailId : String) (content : String)
  | sms (mobileNumber : String) (content : String)
  | popup (content : String)
deriving DecidableEq, Repr

/-- An implementation of the `INotificationStrategy` interface (lines
173-176): `sendNotification(content)` either completes (producing a delivery
event) or throws. -/
abbrev INotificationStrategy := String → Except ChannelError DeliveryEvent

/-- `EmailStrategy::sendNotification` (lines 186-189): always succeeds,
delivering to the stored email id. -/
def EmailStrategy (emailId : String) : INotificationStrategy :=
  fun content => .ok (.email emailId content)

/-- `SMSStrategy::sendNotification` (lines 200-203): always succeeds,
delivering to the stored mobile number. -/
def SMSStrategy (mobileNumber : String) : INotificationStrategy :=
  fun content => .ok (.sms mobileNumber content)

/-- `PopUpStrategy::sendNotification` (lines 208-211): always succeeds. -/
def PopUpStrategy : INotificationStrategy :=
  fun content => .ok (.popup content)

/-- The loop body of `NotificationEngine::update` (lines 233-238): invoke
each strategy in order on the content.  The C++ loop has no try/catch, so a
thrown exception ends the loop at once and propagates to the caller; the
result is the list of deliveries that happened, plus the propagated error if
one was thrown. -/
def runStrategies (strategies : List INotificationStrategy) (content : String) :
    List DeliveryEvent × Option ChannelError :=
  match strategies with
  | [] => ([], none)
  | strat :: rest =>
      match strat content with
      | .ok e =>
          let r := runStrategies rest content
          (e :: r.1, r.2)
      | .error err => ([], some err)

/-- A strategy whose delivery fails, as an `INotificationStrategy`
implementation may: used to exercise the engine loop on a failing channel. -/
def failingStrategy (err : ChannelError) : INotificationStrategy :=
  fun _ => .error err

/-- C6 counterexample: with channels `[A, B, C]` where `B.deliver` throws,
the engine loop does NOT still invoke `C.deliver`, and the failure IS
propagated (not collected): the run delivers only the `A` event and ends
with the error. -/
theorem engine_channel_failure_counterexample :
    ¬ ((runStrategies [EmailStrategy "a@x.com", failingStrategy ⟨"transport down"⟩,
          SMSStrategy "+1"] "hi").1.count (.email "a@x.com" "hi") = 1 ∧
       (runStrategies [EmailStrategy "a@x.com", failingStrategy ⟨"transport down"⟩,
          SMSStrategy "+1"] "hi").1.count (.sms "+1" "hi") = 1 ∧
       (runStrategies [EmailStrategy "a@x.com", failingStrategy ⟨"transport down"⟩,
          SMSStrategy "+1"] "hi").2 = none) := by
  intro h
  exact absurd h.2.1 (by decide)

/-- C6 amended: a failing channel short-circuits the engine loop: with
channels `[a, b, c]` where `b` throws and `a`, `c` would succeed, exactly the
`a` delivery happens (once), `c` is never invoked, and the error propagates
out of `update`. -/
theorem engine_channel_failure_short_circuits (a c : INotificationStrategy)
    (ea ec : DeliveryEvent) (err : ChannelError) (content : String)
    (ha : a content = .ok ea) (hc : c content = .ok ec) :
    runStrategies [a, failingStrategy err, c] content = ([ea], some err) := by
  simp [runStrategies, failingStrategy, ha]

/-- Witness for the amended C6 at concrete channels. -/
theorem engine_channel_failure_short_circuits_witness :
    EmailStrategy "x@y.z" "m" = .ok (.email "x@y.z" "m") ∧
    SMSStrategy "+353" "m" = .ok (.sms "+353" "m") ∧
    runStrategies [EmailStrategy "x@y.z", failingStrategy ⟨"boom"⟩, SMSStrategy "+353"] "m" =
      ([.email "x@y.z" "m"], some ⟨"boom"⟩) :=
  ⟨rfl, rfl,
    engine_channel_failure_short_circuits (EmailStrategy "x@y.z") (SMSStrategy "+353")
      (.email "x@y.z" "m") (.sms "+353" "m") ⟨"boom"⟩ "m" rfl rfl⟩

/-- C3: `setNotification` stores the new content before notifying, and the
notification trace invokes each registered observer entry exactly once, in
registration order, each invocation observing the just-published content;
with no duplicate registrations every still-registered subscriber is invoked
exactly once. -/
theorem setNotification_notifies_in_order (s : ObservableState) (n : INotification) :
    (setNotification s n).1.currentNotification = some n ∧
    (setNotification s n).2 = s.observers.map (fun o => (o, some (getContent n))) ∧
    (∀ o : ObserverId, s.observers.Nodup → o ∈ s.observers →
      ((setNotification s n).2.countP (fun e => e.1 == o)) = 1) := by
  refine ⟨rfl, ?_, ?_⟩
  · simp [setNotification, notifyObservers, getNotificationContent]
  · intro o hnd hmem
    simp only [setNotification, notifyObservers, getNotificationContent, List.countP_map]
    have : (fun e => e.1 == o) ∘
        (fun x => (x, Option.map getContent (some n))) = (fun x => x == o) := by
      funext x; rfl
    rw [this]
    have hcount : s.observers.count o = 1 := List.count_eq_one_of_mem hnd hmem
    simpa [List.count] using hcount

/-- Witness for C3 at a concrete state. -/
theorem setNotification_notifies_in_order_witness :
    ([(3 : ObserverId), 7].Nodup ∧ (3 : ObserverId) ∈ [(3 : ObserverId), 7]) ∧
    ((setNotification ⟨[3, 7], none⟩ (.simple "hi")).2.countP (fun e => e.1 == 3)) = 1 :=
  ⟨⟨by decide, by decide⟩,
    (setNotification_notifies_in_order ⟨[3, 7], none⟩ (.simple "hi")).2.2 3
      (by decide) (by decide)⟩

/-- C4: `removeObserver` deletes every registered occurrence of the given
observer identity, is a no-op when the observer is not registered, and after
it a publish never invokes that observer. -/
theorem removeObserver_unsubscribes (s : ObservableState) (o : ObserverId)
    (n : INotification) :
    o ∉ (removeObserver s o).observers ∧
    (o ∉ s.observers → removeObserver s o = s) ∧
    (∀ e ∈ (setNotification (removeObserver s o) n).2, e.1 ≠ o) := by
  refine ⟨?_, ?_, ?_⟩
  · simp [removeObserver]
  · intro hnotin
    have hfil : List.filter (fun x => decide (x ≠ o)) s.observers = s.observers := by
      apply List.filter_eq_self.mpr
      intro a ha
      simp only [ne_eq, decide_eq_true_eq]
      exact fun h => hnotin (h ▸ ha)
    show ObservableState.mk (List.filter (fun x => decide (x ≠ o)) s.observers)
        s.currentNotification = s
    rw [hfil]
  · intro e he
    simp only [setNotification, notifyObservers, removeObserver, List.mem_map,
      List.mem_filter] at he
    obtain ⟨x, ⟨_, hx⟩, rfl⟩ := he
    simpa using hx

/-- Witness for C4 at a concrete state (observer 2 absent, so removal is a
no-op there; observer 1 removed twice over). -/
theorem removeObserver_unsubscribes_witness :
    ((2 : ObserverId) ∉ ([1, 5, 1] : List ObserverId)) ∧
    ((1 : ObserverId) ∉ (removeObserver ⟨[1, 5, 1], none⟩ 1).observers ∧
      (∀ e ∈ (setNotification (removeObserver ⟨[1, 5, 1], none⟩ 1) (.simple "x")).2,
        e.1 ≠ 1)) :=
  ⟨by decide,
    ⟨(removeObserver_unsubscribes ⟨[1, 5, 1], none⟩ 1 (.simple "x")).1,
      (removeObserver_unsubscribes ⟨[1, 5, 1], none⟩ 1 (.simple "x")).2.2⟩⟩

/-- C5: duplicate subscription yields duplicate notifications: an observer
registered `k ≥ 1` times is invoked exactly `k` times by one publish. -/
theorem duplicate_subscription_duplicate_notifications (s : ObservableState)
    (o : ObserverId) (n : INotification) (k : Nat)
    (hk : s.observers.count o = k) (hpos : 1 ≤ k) :
    ((setNotification s n).2.countP (fun e => e.1 == o)) = k := by
  simp only [setNotification, notifyObservers, getNotificationContent, List.countP_map]
  have : (fun e => e.1 == o) ∘
      (fun x => (x, Option.map getContent (some n))) = (fun x => x == o) := by
    funext x; rfl
  rw [this]
  simpa [List.count] using hk

/-- Witness for C5: observer 4 registered twice receives two invocations. -/
theorem duplicate_subscription_duplicate_notifications_witness :
    (([4, 9, 4] : List ObserverId).count 4 = 2 ∧ 1 ≤ 2) ∧
    ((setNotification ⟨[4, 9, 4], none⟩ (.simple "m")).2.countP (fun e => e.1 == 4)) = 2 :=
  ⟨⟨by decide, by decide⟩,
    duplicate_subscription_duplicate_notifications ⟨[4, 9, 4], none⟩ 4 (.simple "m") 2
      (by decide) (by decide)⟩

theorem data_append (a b : String) : (a ++ b).data = a.data ++ b.data := rfl

/-- The exact string `EmailStrategy::sendNotification` writes to standard
output (lines 187-188). -/
def emailOutput (emailId content : String) : String :=
  "\n[Email] Sent to " ++ emailId ++ ":\n" ++ content

/-- The exact string `SMSStrategy::sendNotification` writes to standard
output (lines 201-202). -/
def smsOutput (mobileNumber content : String) : String :=
  "\n[SMS] Sent to " ++ mobileNumber ++ ":\n" ++ content

/-- The exact string `PopUpStrategy::sendNotification` writes to standard
output (lines 209-210). -/
def popupOutput (content : String) : String :=
  "\n[Popup] Notification displayed:\n" ++ content

/-- The exact string `Logger::update` writes to standard output
(lines 168-169). -/
def loggerOutput (content : String) : String :=
  "\n[Logger] New Notification Logged:\n" ++ content

/-- The output shape the spec ascribes to every delivery action:
`[<Channel>] Sent to <target>:` on its own line, followed by the content. -/
def sentToLine (channel target content : String) : String :=
  "\n[" ++ channel ++ "] Sent to " ++ target ++ ":\n" ++ content

/-- C8 counterexample: the popup channel does not write a
`[Popup] Sent to <target>:` line for any target; its output line is
`[Popup] Notification displayed:`. -/
theorem popup_output_counterexample :
    ¬ ∃ target : String, popupOutput "hi" = sentToLine "Popup" target "hi" := by
  rintro ⟨t, h⟩
  have h2 : (popupOutput "hi").data =
      ("\n[Popup] Sent to ").data ++ (t.data ++ (":\n" ++ "hi").data) := by
    rw [h]
    simp only [sentToLine, data_append, List.append_assoc, List.cons_append,
      List.nil_append]
  have hlen : (10 : Nat) ≤ ("\n[Popup] Sent to ").data.length := by decide
  have h3 : (popupOutput "hi").data.take 10 = ("\n[Popup] Sent to ").data.take 10 := by
    rw [h2, List.take_append_of_le_length hlen]
  exact absurd h3 (by decide)

/-- C8 amended: the Email and SMS channels write
`[<Channel>] Sent to <target>:` followed by the content; the Popup channel
writes `[Popup] Notification displayed:` followed by the content (it has no
target); the Logger writes `[Logger] New Notification Logged:` followed by
the content. -/
theorem output_line_forms (emailId mobileNumber content : String) :
    emailOutput emailId content = sentToLine "Email" emailId content ∧
    smsOutput mobileNumber content = sentToLine "SMS" mobileNumber content ∧
    popupOutput content = "\n[Popup] Notification displayed:\n" ++ content ∧
    loggerOutput content = "\n[Logger] New Notification Logged:\n" ++ content := by
  refine ⟨?_, ?_, rfl, rfl⟩ <;> simp [emailOutput, smsOutput, sentToLine, String.append_assoc]

/-- `s` starts with `tag`: some remainder follows it. -/
def strStartsWith (s tag : String) : Prop := ∃ rest, s = tag ++ rest

/-- `s` ends with `sfx`: some front part precedes it. -/
def strEndsWith (s sfx : String) : Prop := ∃ p, s = p ++ sfx

/-- The notification built in `main` (lines 252-254): a simple message
wrapped by the timestamp decorator, then by the signature decorator. -/
def mainNotification : INotification :=
  .signature (.timestamp (.simple "Your internship confirmation has been approved!"))
    "Microsoft Dublin HR Team"

/-- The content string `main` publishes. -/
def mainContent : String := getContent mainNotification

/-- The strategies `main` registers on the engine, in order (lines 248-250). -/
def mainStrategies : List INotificationStrategy :=
  [EmailStrategy "abc@outlook.com", SMSStrategy "+353 8743210", PopUpStrategy]

/-- A console event of the whole program: a logger line or a delivery. -/
inductive OutputEvent where
  | loggerLog (content : String)
  | delivered (e : DeliveryEvent)
deriving DecidableEq, Repr

/-- `Logger::update` (lines 167-170): reads the current content from the
observable and logs it (`none` models the null dereference that would occur
with no published content). -/
def loggerUpdate (s : ObservableState) : Option (List OutputEvent) :=
  (getNotificationContent s).map (fun c => [.loggerLog c])

/-- `NotificationEngine::update` (lines 233-238): reads the current content
once, then runs every strategy on it; the second component is the exception
propagated out of the loop, if any. -/
def engineUpdate (strategies : List INotificationStrategy) (s : ObservableState) :
    Option (List OutputEvent × Option ChannelError) :=
  (getNotificationContent s).map (fun c =>
    ((runStrategies strategies c).1.map .delivered, (runStrategies strategies c).2))

/-- The observable state at notification time in `main`: the Logger
(observer 0) was registered first, the engine (observer 1) second, and
`sendNotification` has just stored the decorated notification
(lines 241-256). -/
def mainPublishedState : ObservableState :=
  { observers := [0, 1], currentNotification := some mainNotification }

/-- The console events of the publish in `main`: the notify loop runs the
Logger update, then the engine update, which runs its three strategies in
order; `none` would mean a crash or a propagated exception. -/
def mainEvents : Option (List OutputEvent) :=
  match loggerUpdate mainPublishedState, engineUpdate mainStrategies mainPublishedState with
  | some le, some (ee, none) => some (le ++ ee)
  | _, _ => none

/-- C7 counterexample: the end-to-end claim fails on the content `main`
publishes, because that content does not end with the signature text
`-- Microsoft Dublin HR Team`: the signature decorator appends two further
newline characters after it. -/
theorem mainContent_tail_counterexample :
    ¬ (strStartsWith mainContent "[2025-10-26 10:45:00] " ∧
       strEndsWith mainContent ("-- " ++ "Microsoft Dublin HR Team") ∧
       mainEvents = some
        [.loggerLog mainContent,
          .delivered (.email "abc@outlook.com" mainContent),
          .delivered (.sms "+353 8743210" mainContent),
          .delivered (.popup mainContent)]) := by
  rintro ⟨-, ⟨p, h⟩, -⟩
  have h2 : mainContent.data.getLast? = ("-- " ++ "Microsoft Dublin HR Team").data.getLast? := by
    rw [h, data_append]
    exact List.getLast?_append_of_ne_nil _ (by decide)
  exact absurd h2 (by decide)

/-- C7 amended: the content published by `main` starts with the timestamp
text and ends with the signature text `-- Microsoft Dublin HR Team` followed
by two newline characters, and the publish delivers exactly that string,
exactly once each, in subscription order, to the Logger and then the Email,
SMS and Popup channels. -/
theorem main_end_to_end :
    strStartsWith mainContent "[2025-10-26 10:45:00] " ∧
    strEndsWith mainContent ("-- " ++ "Microsoft Dublin HR Team" ++ "\n\n") ∧
    mainEvents = some
      [.loggerLog mainContent,
        .delivered (.email "abc@outlook.com" mainContent),
        .delivered (.sms "+353 8743210" mainContent),
        .delivered (.popup mainContent)] := by
  refine ⟨⟨"Your internship confirmation has been approved!\n-- Microsoft Dublin HR Team\n\n",
    rfl⟩,
    ⟨"[2025-10-26 10:45:00] Your internship confirmation has been approved!\n", rfl⟩, rfl⟩

/-- State of the `NotificationService` singleton object (lines 118-148):
the owned observable and the `notifications` vector. -/
structure ServiceState where
  observable : ObservableState
  notifications : List INotification
deriving DecidableEq, Repr

/-- The private `NotificationService` constructor (lines 124-126): a fresh
observable, empty `notifications` vector. -/
def freshService : ServiceState :=
  { observable := freshObservable, notifications := [] }

/-- `NotificationService::sendNotification` (lines 140-143): pushes the
notification onto the `notifications` vector (which is never read or
cleared anywhere in the program), then hands it to the observable.  The
observable deletes the previously current notification, so in C++ the
earlier vector entries become dangling; the vector still keeps one entry
per publish. -/
def NotificationService.sendNotification (s : ServiceState) (n : INotification) :
    ServiceState × List (ObserverId × Option String) :=
  let r := setNotification s.observable n
  ({ observable := r.1, notifications := s.notifications ++ [n] }, r.2)

/-- A sequence of publishes through the service, in order. -/
def sendAll (s : ServiceState) (ns : List INotification) : ServiceState :=
  ns.foldl (fun acc n => (NotificationService.sendNotification acc n).1) s

theorem sendAll_notifications (ns : List INotification) (s : ServiceState) :
    (sendAll s ns).notifications = s.notifications ++ ns := by
  induction ns generalizing s with
  | nil => simp [sendAll]
  | cons n rest ih =>
      have step := ih ((NotificationService.sendNotification s n).1)
      simpa [sendAll, NotificationService.sendNotification, setNotification,
        List.append_assoc] using step

theorem getLast?_cons_eq_or (a : α) (l : List α) :
    (a :: l).getLast? = l.getLast?.or (some a) := by
  induction l generalizing a with
  | nil => rfl
  | cons b t ih =>
      rw [List.getLast?_cons_cons, ih b]
      cases t.getLast? <;> rfl

theorem sendAll_currentNotification (ns : List INotification) (s : ServiceState) :
    (sendAll s ns).observable.currentNotification =
      ns.getLast?.or s.observable.currentNotification := by
  induction ns generalizing s with
  | nil => rfl
  | cons n rest ih =>
      have step := ih ((NotificationService.sendNotification s n).1)
      rw [getLast?_cons_eq_or]
      cases h : rest.getLast? with
      | none =>
          simpa [sendAll, NotificationService.sendNotification, setNotification, h]
            using step
      | some v =>
          simpa [sendAll, NotificationService.sendNotification, setNotification, h]
            using step

/-- C9 counterexample: after two publishes through a fresh service the
`notifications` vector holds two entries, so the system does not retain at
most the single current content; the collection grows with the number of
publishes. -/
theorem service_history_counterexample :
    (sendAll freshService [.simple "a", .simple "b"]).notifications.length = 2 ∧
    ¬ ((sendAll freshService [.simple "a", .simple "b"]).notifications.length ≤ 1) := by
  constructor <;> decide

/-- C9 amended: the observable retains only the last published notification
(the previous one is deleted on each publish), but the service retains the
entire history: after publishing the sequence `ns` from a fresh service, the
`notifications` vector equals `ns`, one entry per publish. -/
theorem service_retention (ns : List INotification) :
    (sendAll freshService ns).notifications = ns ∧
    (sendAll freshService ns).observable.currentNotification = ns.getLast? := by
  constructor
  · simpa [freshService] using sendAll_notifications ns freshService
  · simpa [freshService, freshObservable] using sendAll_currentNotification ns freshService

/-- The static singleton slot `NotificationService::instance`
(lines 121 and 150), initially null. -/
abbrev SingletonState := Option ServiceState

/-- `NotificationService::getInstance` (lines 129-134): constructs the
service on the first call, afterwards always returns the stored instance. -/
def getInstance (w : SingletonState) : SingletonState × ServiceState :=
  match w with
  | none => (some freshService, freshService)
  | some s => (some s, s)

/-- The default `Logger` constructor (lines 157-160): fetches the singleton
service, reads its observable and registers itself as an observer. -/
def Logger.construct (w : SingletonState) (selfId : ObserverId) : SingletonState :=
  match getInstance w with
  | (_, s) => some { s with observable := addObserver s.observable selfId }

/-- The default `NotificationEngine` constructor (lines 220-223): fetches
the singleton service, reads its observable and registers itself as an
observer. -/
def NotificationEngine.construct (w : SingletonState) (selfId : ObserverId) :
    SingletonState :=
  match getInstance w with
  | (_, s) => some { s with observable := addObserver s.observable selfId }

/-- C10: `getInstance` is idempotent (a second call returns the same
instance and leaves the singleton slot unchanged), and a default-constructed
Logger followed by a default-constructed NotificationEngine register, in
that order, on one and the same observable, so one publish through the
service notifies both with the published content. -/
theorem getInstance_idempotent_shared_observable (n : INotification) :
    (∀ w : SingletonState, getInstance (getInstance w).1 = getInstance w) ∧
    (∃ s : ServiceState,
      NotificationEngine.construct (Logger.construct none 0) 1 = some s ∧
      s.observable.observers = [0, 1] ∧
      (NotificationService.sendNotification s n).2 =
        [(0, some (getContent n)), (1, some (getContent n))]) := by
  constructor
  · intro w; cases w <;> rfl
  · refine ⟨_, rfl, rfl, ?_⟩
    simp [NotificationService.sendNotification, setNotification, notifyObservers,
      getNotificationContent, Logger.construct, NotificationEngine.construct,
      getInstance, freshService, freshObservable, addObserver]

end NotificationModel
